import Mathlib

/-!
# Verification of the CSV bulk-import pipeline (task-2-refactor/server.js)

Shallow embedding of the import pipeline:
* `propertySchemaValidate` embeds the Joi `propertySchema` with
  `stripUnknown: true` (fields checked in declaration order: title,
  price, projectId; first failure wins, as Joi does with its default
  `abortEarly`).
* `processCSVStream` embeds the stream-processing loop (rowIndex counter,
  per-row validation, partition into valid records and row errors).
* `importProperties` embeds the `/import-properties` handler: empty-file
  guard, no-valid-records guard, brokerId enrichment, the single
  `Property.insertMany` call, and response assembly.  The second component
  of its result is the trace of `insertMany` calls (one entry per call,
  carrying the submitted batch).

A CSV buffer is modelled at line granularity: a list of lines, each a list
of field strings; the decoder (`decodeCSV`, embedding `csv-parser`)
consumes the first line as the header and zips every later line with it.
Error messages are modelled as a structured kind (`ValidationError`)
naming the violated field and rule, with `errorMessage` rendering the
human-readable text.
-/

/-- A decoded, not-yet-validated row: column-name / value pairs. -/
abbrev RawRecord := List (String × String)

/-- A record that passed the schema: the three declared fields, typed. -/
structure ValidatedRecord where
  title : String
  price : Int
  projectId : String
deriving DecidableEq, Repr

/-- The rule violations the schema can report, one per (field, rule). -/
inductive ValidationError where
  | titleRequired
  | titleEmpty
  | titleTooLong
  | priceRequired
  | priceNotANumber
  | priceNotPositive
  | projectIdRequired
  | projectIdEmpty
deriving DecidableEq, Repr

/-- The schema field a validation error cites. -/
inductive SchemaField where
  | title
  | price
  | projectId
deriving DecidableEq, Repr

/-- Which field a `ValidationError` cites. -/
def citedField : ValidationError → SchemaField
  | .titleRequired => .title
  | .titleEmpty => .title
  | .titleTooLong => .title
  | .priceRequired => .price
  | .priceNotANumber => .price
  | .priceNotPositive => .price
  | .projectIdRequired => .projectId
  | .projectIdEmpty => .projectId

/-- Human-readable message of a validation error (Joi default texts). -/
def errorMessage : ValidationError → String
  | .titleRequired => "\"title\" is required"
  | .titleEmpty => "\"title\" is not allowed to be empty"
  | .titleTooLong => "\"title\" length must be less than or equal to 200 characters long"
  | .priceRequired => "\"price\" is required"
  | .priceNotANumber => "\"price\" must be a number"
  | .priceNotPositive => "\"price\" must be a positive number"
  | .projectIdRequired => "\"projectId\" is required"
  | .projectIdEmpty => "\"projectId\" is not allowed to be empty"

/-- Whitespace trimming of both ends of a string (the `.trim()` rule of
the schema), computed structurally over the character list. -/
def strTrim (s : String) : String :=
  ⟨((s.data.dropWhile Char.isWhitespace).reverse.dropWhile Char.isWhitespace).reverse⟩

/-- Digit-run parser: `some n` iff the character list is a non-empty run
of digits. -/
def digitsOf (cs : List Char) : Option Nat :=
  if cs ≠ [] ∧ cs.all Char.isDigit then
    some (cs.foldl (fun a c => a * 10 + (c.toNat - 48)) 0)
  else
    none

/-- Numeric coercion of a CSV field value, embedding `Joi.number()`
conversion: optional leading minus sign, then digits. -/
def parseNumber (s : String) : Option Int :=
  match s.data with
  | '-' :: rest => (digitsOf rest).map (fun n => -(n : Int))
  | cs => (digitsOf cs).map Int.ofNat

/-- Field rule `title: Joi.string().trim().min(1).max(200).required()`. -/
def checkTitle (raw : RawRecord) : Except ValidationError String :=
  match raw.lookup "title" with
  | none => .error .titleRequired
  | some s =>
      let t := strTrim s
      if t.length = 0 then .error .titleEmpty
      else if t.length > 200 then .error .titleTooLong
      else .ok t

/-- Field rule `price: Joi.number().positive().required()`. -/
def checkPrice (raw : RawRecord) : Except ValidationError Int :=
  match raw.lookup "price" with
  | none => .error .priceRequired
  | some s =>
      match parseNumber s with
      | none => .error .priceNotANumber
      | some n => if 0 < n then .ok n else .error .priceNotPositive

/-- Field rule `projectId: Joi.string().trim().min(1).required()`. -/
def checkProjectId (raw : RawRecord) : Except ValidationError String :=
  match raw.lookup "projectId" with
  | none => .error .projectIdRequired
  | some s =>
      let t := strTrim s
      if t.length = 0 then .error .projectIdEmpty
      else .ok t

/-- Embeds `propertySchema.validate(data, { stripUnknown: true })`: fields are
checked in declaration order (title, price, projectId); the first rule
violation of the first failing field is reported; unknown keys are stripped (the
result record holds only the three declared fields). -/
def propertySchemaValidate (raw : RawRecord) : Except ValidationError ValidatedRecord :=
  match checkTitle raw with
  | .error e => .error e
  | .ok t =>
      match checkPrice raw with
      | .error e => .error e
      | .ok p =>
          match checkProjectId raw with
          | .error e => .error e
          | .ok pid => .ok ⟨t, p, pid⟩

/-- One entry of the `errors` array built by `processCSVStream`. -/
structure RowError where
  row : Nat
  data : RawRecord
  error : ValidationError
deriving DecidableEq, Repr

/-- Embeds `csv-parser`: the first line is the header, never emitted as a record;
every later line is zipped with the header into a column/value mapping. -/
def decodeCSV (lines : List (List String)) : List RawRecord :=
  match lines with
  | [] => []
  | header :: rows => rows.map (fun r => header.zip r)

/-- Embeds the data-event loop body of `processCSVStream`: `i` is the value of
`rowIndex` before the next record is handled; it is incremented once per
record; valid records are appended to `results`, failures to `errors`
carrying the incremented index. -/
def processRows (i : Nat) : List RawRecord → List ValidatedRecord × List RowError
  | [] => ([], [])
  | d :: rest =>
      let res := processRows (i + 1) rest
      match propertySchemaValidate d with
      | .error e => (res.1, ⟨i + 1, d, e⟩ :: res.2)
      | .ok v => (v :: res.1, res.2)

/-- Embeds `processCSVStream`: decoded records are validated one at a time with a
`rowIndex` counter starting at 0 and pre-incremented, producing
`(validProperties, errors)`. -/
def processCSVStream (records : List RawRecord) : List ValidatedRecord × List RowError :=
  processRows 0 records

/-- A valid property enriched with `brokerId` and `createdAt` (the map at
lines 139-143 of server.js); `createdAt` is modelled as a tick count. -/
structure PropertyWithBroker where
  title : String
  price : Int
  projectId : String
  brokerId : String
  createdAt : Nat
deriving DecidableEq, Repr

/-- What the mock `Property.insertMany` returns: the submitted property
plus a generated id (`Date.now() + index`). -/
structure StoredProperty where
  property : PropertyWithBroker
  id : Nat
deriving DecidableEq, Repr

/-- Embeds `Property.insertMany`: maps each submitted property to a stored copy
with id `now + index` (one stored record per submitted record). -/
def insertMany (now : Nat) (properties : List PropertyWithBroker) : List StoredProperty :=
  (properties.enum).map (fun p => ⟨p.2, now + p.1⟩)

/-- The `summary` object of the 200 response. -/
structure ImportSummary where
  totalProcessed : Nat
  successful : Nat
  failed : Nat
  processingTimeMs : Nat
deriving DecidableEq, Repr

/-- The 200 response body (`success`, `message`, `summary`, and
`validationErrors` attached only when errors exist). -/
structure SuccessResponse where
  success : Bool
  message : String
  summary : ImportSummary
  validationErrors : Option (List RowError)
deriving DecidableEq, Repr

/-- The four return sites of the `/import-properties` handler. -/
inductive ImportResult where
  /-- 400 `No CSV file provided`. -/
  | noFile
  /-- 400 `Empty CSV file provided`. -/
  | emptyFile
  /-- 400 with `error` and the accumulated `validationErrors`. -/
  | noValidRecords (error : String) (validationErrors : List RowError)
  /-- 200 with the assembled response. -/
  | completed (response : SuccessResponse)
deriving DecidableEq, Repr

/-- The `success` flag of the JSON body at each return site. -/
def successFlag : ImportResult → Bool
  | .completed r => r.success
  | _ => false

/-- The `summary` object of the response, when one is present. -/
def responseSummary : ImportResult → Option ImportSummary
  | .completed r => some r.summary
  | _ => none

/-- The top-level `error` string of the response, when one is present. -/
def responseError : ImportResult → Option String
  | .noFile => some "No CSV file provided"
  | .emptyFile => some "Empty CSV file provided"
  | .noValidRecords e _ => some e
  | .completed _ => none

/-- The `/import-properties` handler.  `file` is the uploaded buffer
(`none` when no file reached the handler), given at line granularity;
`brokerId` is `req.user.id`; `now` stands for `Date.now()` inside
`insertMany`; `elapsed` for the measured processing time.  The second
component is the trace of `Property.insertMany` calls, in order, each
carrying the batch it was given. -/
def importProperties (file : Option (List (List String))) (brokerId : String)
    (now elapsed : Nat) : ImportResult × List (List PropertyWithBroker) :=
  match file with
  | none => (.noFile, [])
  | some lines =>
      if lines.isEmpty then
        (.emptyFile, [])
      else
        let decoded := processCSVStream (decodeCSV lines)
        let validProperties := decoded.1
        let errors := decoded.2
        if validProperties.isEmpty then
          (.noValidRecords "No valid properties found in CSV" errors, [])
        else
          let propertiesWithBroker := validProperties.map
            (fun p => PropertyWithBroker.mk p.title p.price p.projectId brokerId now)
          let insertedProperties := insertMany now propertiesWithBroker
          let response : SuccessResponse :=
            { success := true
              message :=
                if errors.length > 0 then
                  "Import completed with " ++ toString errors.length ++ " validation errors"
                else "Import completed"
              summary :=
                { totalProcessed := validProperties.length + errors.length
                  successful := insertedProperties.length
                  failed := errors.length
                  processingTimeMs := elapsed }
              validationErrors := if errors.length > 0 then some errors else none }
          (.completed response, [propertiesWithBroker])

/-- True iff `propertySchema.validate` accepts the record (no `error` field
in the Joi result). -/
def validationPassed (raw : RawRecord) : Bool :=
  match propertySchemaValidate raw with
  | .ok _ => true
  | .error _ => false

/-- Header line of the sample CSV files below. -/
def sampleHeader : List String := ["title", "price", "projectId"]

/-- A file that decodes to 2500 valid rows (the batching scenario). -/
def c1File : List (List String) :=
  sampleHeader :: List.replicate 2500 ["Villa", "500000", "p1"]

/-- A file with one valid and one invalid data row. -/
def sampleMixedFile : List (List String) :=
  [sampleHeader, ["Villa", "500000", "p1"], ["", "100", "p1"]]

/-- The 200 response the handler assembles for `sampleMixedFile` with
broker `broker_123`, `now = 5` and elapsed time 7. -/
def sampleMixedResponse : SuccessResponse :=
  { success := true
    message := "Import completed with 1 validation errors"
    summary := { totalProcessed := 2, successful := 1, failed := 1, processingTimeMs := 7 }
    validationErrors :=
      some [⟨2, [("title", ""), ("price", "100"), ("projectId", "p1")], .titleEmpty⟩] }

/-- Data rows of a file in which every row fails validation. -/
def allInvalidRows : List (List String) := [["", "-5", "p1"]]

/-- A raw record with valid title and non-positive price. -/
def c4Raw : RawRecord := [("title", "Ok"), ("price", "-5"), ("projectId", "p1")]

/-- A raw record with empty title and non-positive price. -/
def c4BadRaw : RawRecord := [("title", ""), ("price", "-5"), ("projectId", "p1")]

/-- A raw record with empty title and non-positive price (multiple field
violations in one row). -/
def c6Raw : RawRecord := [("title", ""), ("price", "-5"), ("projectId", "p1")]

/-- A fully valid raw record. -/
def c8Raw : RawRecord := [("title", "Villa"), ("price", "500000"), ("projectId", "p1")]

/-- A valid raw record carrying an extra, undeclared column. -/
def c9RawA : RawRecord :=
  [("title", "Villa"), ("price", "500000"), ("projectId", "p1"), ("size", "90")]

/-- The same three declared fields as `c9RawA`, without the extra column. -/
def c9RawB : RawRecord := [("title", "Villa"), ("price", "500000"), ("projectId", "p1")]

/-- Data rows for the row-numbering scenario: one valid, one invalid. -/
def c5Rows : List (List String) := [["Villa", "500000", "p1"], ["", "100", "p1"]]

/-- The row error produced by the second data row of `c5Rows`. -/
def c5Err : RowError :=
  ⟨2, [("title", ""), ("price", "100"), ("projectId", "p1")], .titleEmpty⟩

/-! ## Helper lemmas -/

theorem insertMany_length (now : Nat) (ps : List PropertyWithBroker) :
    (insertMany now ps).length = ps.length := by
  simp [insertMany]

theorem processRows_lengths (rs : List RawRecord) (i : Nat) :
    (processRows i rs).1.length + (processRows i rs).2.length = rs.length := by
  induction rs generalizing i with
  | nil => simp [processRows]
  | cons d rest ih =>
      simp only [processRows]
      cases hv : propertySchemaValidate d with
      | error e =>
          simp only [List.length_cons]
          have := ih (i + 1)
          omega
      | ok v =>
          simp only [List.length_cons]
          have := ih (i + 1)
          omega

theorem processRows_row_bounds (rs : List RawRecord) (i : Nat) :
    ∀ e ∈ (processRows i rs).2, i < e.row ∧ e.row ≤ i + rs.length := by
  induction rs generalizing i with
  | nil => simp [processRows]
  | cons d rest ih =>
      intro e he
      simp only [processRows] at he
      cases hv : propertySchemaValidate d with
      | error err =>
          rw [hv] at he
          simp only [List.mem_cons] at he
          rcases he with rfl | he
          · simp only [List.length_cons]
            omega
          · have := ih (i + 1) e he
            simp only [List.length_cons]
            omega
      | ok v =>
          rw [hv] at he
          have := ih (i + 1) e he
          simp only [List.length_cons]
          omega

theorem processRows_pairwise (rs : List RawRecord) (i : Nat) :
    ((processRows i rs).2).Pairwise (fun a b => a.row < b.row) := by
  induction rs generalizing i with
  | nil => simp [processRows]
  | cons d rest ih =>
      simp only [processRows]
      cases hv : propertySchemaValidate d with
      | error err =>
          refine List.Pairwise.cons ?_ (ih (i + 1))
          intro e he
          exact (processRows_row_bounds rest (i + 1) e he).1
      | ok v => exact ih (i + 1)

theorem processRows_replicate (n : Nat) (i : Nat) (d : RawRecord) (v : ValidatedRecord)
    (h : propertySchemaValidate d = .ok v) :
    processRows i (List.replicate n d) = (List.replicate n v, []) := by
  induction n generalizing i with
  | zero => simp [processRows]
  | succ m ih =>
      simp only [List.replicate_succ, processRows, ih (i + 1), h]

theorem processRows_of_all_invalid (rs : List RawRecord) (i : Nat)
    (h : ∀ d ∈ rs, validationPassed d = false) :
    (processRows i rs).1 = [] ∧ (processRows i rs).2.length = rs.length := by
  induction rs generalizing i with
  | nil => simp [processRows]
  | cons d rest ih =>
      have hd : validationPassed d = false := h d (List.mem_cons_self d rest)
      have hrest : ∀ x ∈ rest, validationPassed x = false :=
        fun x hx => h x (List.mem_cons_of_mem d hx)
      simp only [processRows]
      cases hv : propertySchemaValidate d with
      | error e =>
          have := ih (i + 1) hrest
          simp only [List.length_cons]
          exact ⟨this.1, by rw [this.2]⟩
      | ok v =>
          exfalso
          simp [validationPassed, hv] at hd

theorem checkTitle_congr {r1 r2 : RawRecord}
    (h : List.lookup "title" r1 = List.lookup "title" r2) :
    checkTitle r1 = checkTitle r2 := by
  unfold checkTitle
  rw [h]

theorem checkPrice_congr {r1 r2 : RawRecord}
    (h : List.lookup "price" r1 = List.lookup "price" r2) :
    checkPrice r1 = checkPrice r2 := by
  unfold checkPrice
  rw [h]

theorem checkProjectId_congr {r1 r2 : RawRecord}
    (h : List.lookup "projectId" r1 = List.lookup "projectId" r2) :
    checkProjectId r1 = checkProjectId r2 := by
  unfold checkProjectId
  rw [h]

theorem propertySchemaValidate_congr {r1 r2 : RawRecord}
    (ht : List.lookup "title" r1 = List.lookup "title" r2)
    (hp : List.lookup "price" r1 = List.lookup "price" r2)
    (hj : List.lookup "projectId" r1 = List.lookup "projectId" r2) :
    propertySchemaValidate r1 = propertySchemaValidate r2 := by
  unfold propertySchemaValidate
  rw [checkTitle_congr ht, checkPrice_congr hp, checkProjectId_congr hj]

theorem lookup_cons_ne {a k : String} (v : String) (l : List (String × String))
    (h : a ≠ k) : List.lookup a ((k, v) :: l) = List.lookup a l := by
  have hb : (a == k) = false := by simp [h]
  simp [List.lookup, hb]

theorem lookup_append_ne {a k : String} (v : String) (l : List (String × String))
    (h : a ≠ k) : List.lookup a (l ++ [(k, v)]) = List.lookup a l := by
  induction l with
  | nil =>
      have hb : (a == k) = false := by simp [h]
      simp [List.lookup, hb]
  | cons p t ih =>
      obtain ⟨b, w⟩ := p
      cases hb : (a == b) with
      | true => simp [List.lookup, hb]
      | false => simp [List.lookup, hb, ih]

theorem checkPrice_error_cites (raw : RawRecord) (e : ValidationError)
    (h : checkPrice raw = .error e) : citedField e = SchemaField.price := by
  unfold checkPrice at h
  split at h
  · cases h
    rfl
  · split at h
    · cases h
      rfl
    · split at h
      · cases h
      · cases h
        rfl

/-! ## C1 batching -/

theorem c1File_validCount : (processCSVStream (decodeCSV c1File)).1.length = 2500 := by
  have h1 : decodeCSV c1File =
      (List.replicate 2500 ["Villa", "500000", "p1"]).map (fun r => sampleHeader.zip r) := rfl
  have hd : decodeCSV c1File = List.replicate 2500 (sampleHeader.zip ["Villa", "500000", "p1"]) := by
    rw [h1, List.map_replicate]
  unfold processCSVStream
  rw [hd, processRows_replicate 2500 0 _ ⟨"Villa", 500000, "p1"⟩ (by rfl)]
  show (List.replicate 2500 (⟨"Villa", 500000, "p1"⟩ : ValidatedRecord)).length = 2500
  rw [List.length_replicate]

theorem c1File_calls (b : String) (now t : Nat) :
    ((importProperties (some c1File) b now t).2).map List.length = [2500] := by
  have hne : c1File.isEmpty = false := rfl
  have hv : (processCSVStream (decodeCSV c1File)).1.isEmpty = false := by
    have hc := c1File_validCount
    cases hL : (processCSVStream (decodeCSV c1File)).1 with
    | nil => rw [hL] at hc; simp at hc
    | cons a l => simp [hL]
  simp [importProperties, hne, hv, c1File_validCount]

/-- C1 (amended): the Import Coordinator does not batch by a 1000-record
threshold; it accumulates every valid record and, whenever at least one
record is valid (`n ≠ 0`), submits them all to the Persistence Gateway in
a single `insertMany` call whose size is the whole valid-record count
`n` — in particular a file of 2500 valid rows yields one call of size
2500, not three calls of sizes 1000, 1000, 500. -/
theorem import_single_batch_of_all_valid (lines : List (List String)) (b : String)
    (now t : Nat) (n : Nat) (hne : lines.isEmpty = false) (hn : n ≠ 0)
    (hcount : (processCSVStream (decodeCSV lines)).1.length = n) :
    ((importProperties (some lines) b now t).2).map List.length = [n] := by
  have hv : (processCSVStream (decodeCSV lines)).1.isEmpty = false := by
    cases hL : (processCSVStream (decodeCSV lines)).1 with
    | nil => rw [hL] at hcount; simp at hcount; omega
    | cons a l => simp [hL]
  simp [importProperties, hne, hv, hcount]

/-- C1 witness: the single-batch theorem applied to the 2500-valid-row
file. -/
theorem import_single_batch_witness :
    c1File.isEmpty = false ∧ (2500 : Nat) ≠ 0 ∧
    (processCSVStream (decodeCSV c1File)).1.length = 2500 ∧
    ((importProperties (some c1File) "broker_123" 0 0).2).map List.length = [2500] :=
  ⟨rfl, by decide, c1File_validCount,
    (import_single_batch_of_all_valid c1File "broker_123" 0 0 2500 rfl (by decide)
      c1File_validCount)⟩

/-- C1 counterexample: for the file of 2500 valid rows the gateway
receives one call of size 2500, not three calls of sizes 1000, 1000,
500. -/
theorem import_batching_counterexample :
    ((importProperties (some c1File) "broker_123" 0 0).2).map List.length = [2500] ∧
    ((importProperties (some c1File) "broker_123" 0 0).2).map List.length ≠ [1000, 1000, 500] := by
  refine ⟨c1File_calls "broker_123" 0 0, ?_⟩
  rw [c1File_calls "broker_123" 0 0]
  decide

/-! ## C2 summary consistency -/

/-- C2: every invocation that produces an ImportSummary satisfies
`totalProcessed = successful + failed`. -/
theorem import_summary_consistent (file : Option (List (List String))) (b : String)
    (now t : Nat) (r : SuccessResponse)
    (h : (importProperties file b now t).1 = .completed r) :
    r.summary.totalProcessed = r.summary.successful + r.summary.failed := by
  rcases file with _ | lines
  · simp [importProperties] at h
  · by_cases he : lines.isEmpty
    · simp [importProperties, he] at h
    · by_cases hv : (processCSVStream (decodeCSV lines)).1.isEmpty
      · simp [importProperties, he, hv] at h
      · simp [importProperties, he, hv] at h
        subst h
        simp [insertMany_length]

/-- C2 witness: the mixed sample file produces a summary with
`totalProcessed = successful + failed`. -/
theorem import_summary_consistent_witness :
    (importProperties (some sampleMixedFile) "broker_123" 5 7).1
      = ImportResult.completed sampleMixedResponse ∧
    sampleMixedResponse.summary.totalProcessed
      = sampleMixedResponse.summary.successful + sampleMixedResponse.summary.failed :=
  ⟨rfl, import_summary_consistent (some sampleMixedFile) "broker_123" 5 7
    sampleMixedResponse rfl⟩

/-! ## C3 all rows invalid -/

/-- C3 (amended): when every decoded data row fails validation, the
whole operation fails with the no-valid-records rejection carrying the
accumulated row errors (one per data row, so their number equals totalRows), the
Persistence Gateway is never called, and no summary object — hence no
reported successful/failed counts — is produced. -/
theorem all_invalid_rows_rejected (header : List String) (rows : List (List String))
    (b : String) (now t : Nat)
    (h : ∀ d ∈ decodeCSV (header :: rows), validationPassed d = false) :
    (importProperties (some (header :: rows)) b now t) =
      (.noValidRecords "No valid properties found in CSV"
        (processCSVStream (decodeCSV (header :: rows))).2, []) ∧
    ((processCSVStream (decodeCSV (header :: rows))).2).length = rows.length ∧
    responseSummary (importProperties (some (header :: rows)) b now t).1 = none := by
  have hall := processRows_of_all_invalid (decodeCSV (header :: rows)) 0 h
  have hlen : (decodeCSV (header :: rows)).length = rows.length := by
    simp [decodeCSV]
  have hempty : (processCSVStream (decodeCSV (header :: rows))).1.isEmpty = true := by
    simp [processCSVStream, hall.1]
  have h1 : importProperties (some (header :: rows)) b now t =
      (.noValidRecords "No valid properties found in CSV"
        (processCSVStream (decodeCSV (header :: rows))).2, []) := by
    simp [importProperties, hempty]
  refine ⟨h1, ?_, ?_⟩
  · rw [processCSVStream, hall.2, hlen]
  · rw [h1]
    rfl

/-- C3 witness: the one-row all-invalid sample file is rejected with no
gateway call and no summary. -/
theorem all_invalid_rows_rejected_witness :
    (importProperties (some (sampleHeader :: allInvalidRows)) "broker_123" 0 0) =
      (.noValidRecords "No valid properties found in CSV"
        (processCSVStream (decodeCSV (sampleHeader :: allInvalidRows))).2, []) ∧
    ((processCSVStream (decodeCSV (sampleHeader :: allInvalidRows))).2).length
      = allInvalidRows.length ∧
    responseSummary
      (importProperties (some (sampleHeader :: allInvalidRows)) "broker_123" 0 0).1 = none :=
  all_invalid_rows_rejected sampleHeader allInvalidRows "broker_123" 0 0 (by decide)

/-- C3 counterexample: the all-invalid file is rejected with the error
list attached but the response carries no summary object, so no
`successful: 0` and `failed: totalRows` counts are reported. -/
theorem no_summary_counts_counterexample :
    responseSummary
      (importProperties (some (sampleHeader :: allInvalidRows)) "broker_123" 0 0).1 = none ∧
    (importProperties (some (sampleHeader :: allInvalidRows)) "broker_123" 0 0).1 =
      .noValidRecords "No valid properties found in CSV"
        [⟨1, [("title", ""), ("price", "-5"), ("projectId", "p1")], .titleEmpty⟩] :=
  ⟨rfl, rfl⟩

/-! ## C4 price rule -/

/-- C4 (amended): a record whose price is absent, non-numeric or not
positive always fails validation, and the resulting error cites the price
rule whenever the title is valid; when the title is also invalid the
title rule is cited instead (first failing field wins). -/
theorem invalid_price_always_fails (raw : RawRecord) (e : ValidationError)
    (hp : checkPrice raw = .error e) :
    validationPassed raw = false ∧
    ∀ t, checkTitle raw = .ok t →
      propertySchemaValidate raw = .error e ∧ citedField e = SchemaField.price := by
  have hvp : ∀ t, checkTitle raw = .ok t → propertySchemaValidate raw = .error e := by
    intro t ht
    simp [propertySchemaValidate, ht, hp]
  refine ⟨?_, fun t ht => ⟨hvp t ht, checkPrice_error_cites raw e hp⟩⟩
  unfold validationPassed
  cases ht : checkTitle raw with
  | error e1 => simp [propertySchemaValidate, ht]
  | ok t => simp [hvp t ht]

/-- C4 witness: valid title and price `-5` yield the price-rule error. -/
theorem invalid_price_always_fails_witness :
    checkPrice c4Raw = .error ValidationError.priceNotPositive ∧
    validationPassed c4Raw = false ∧
    checkTitle c4Raw = .ok "Ok" ∧
    propertySchemaValidate c4Raw = .error ValidationError.priceNotPositive ∧
    citedField ValidationError.priceNotPositive = SchemaField.price := by
  have h := invalid_price_always_fails c4Raw ValidationError.priceNotPositive rfl
  exact ⟨rfl, h.1, rfl, (h.2 "Ok" rfl).1, (h.2 "Ok" rfl).2⟩

/-- C4 counterexample: with empty title and price `-5` (a price at most
0), the reported error cites the title rule, not the price rule. -/
theorem price_rule_not_cited_counterexample :
    checkPrice c4BadRaw = .error ValidationError.priceNotPositive ∧
    propertySchemaValidate c4BadRaw = .error ValidationError.titleEmpty ∧
    citedField ValidationError.titleEmpty ≠ SchemaField.price :=
  ⟨rfl, rfl, by decide⟩

/-! ## C5 row numbering -/

/-- C5: row numbers count data rows only (the header line is consumed and
never emitted, so the record count equals the data-line count), the
counter is incremented exactly once per decoded record whether valid or
invalid (valid plus error counts add up to the record count), the row
numbers of the error sequence are strictly increasing, and every row
number lies between 1 and the number of data rows. -/
theorem row_numbering (header : List String) (rows : List (List String)) :
    (decodeCSV (header :: rows)).length = rows.length ∧
    (processCSVStream (decodeCSV (header :: rows))).1.length
      + (processCSVStream (decodeCSV (header :: rows))).2.length = rows.length ∧
    ((processCSVStream (decodeCSV (header :: rows))).2).Pairwise
      (fun a b => a.row < b.row) ∧
    ∀ e ∈ (processCSVStream (decodeCSV (header :: rows))).2,
      1 ≤ e.row ∧ e.row ≤ rows.length := by
  have hlen : (decodeCSV (header :: rows)).length = rows.length := by
    simp [decodeCSV]
  refine ⟨hlen, ?_, ?_, ?_⟩
  · unfold processCSVStream
    rw [processRows_lengths (decodeCSV (header :: rows)) 0, hlen]
  · exact processRows_pairwise (decodeCSV (header :: rows)) 0
  · intro e he
    have hb := processRows_row_bounds (decodeCSV (header :: rows)) 0 e he
    rw [hlen] at hb
    omega

/-- C5 witness: the row-numbering theorem applied to a two-row sample
whose second row is invalid. -/
theorem row_numbering_witness :
    (decodeCSV (sampleHeader :: c5Rows)).length = c5Rows.length ∧
    ((processCSVStream (decodeCSV (sampleHeader :: c5Rows))).2).Pairwise
      (fun a b => a.row < b.row) ∧
    (1 ≤ c5Err.row ∧ c5Err.row ≤ c5Rows.length) := by
  have h := row_numbering sampleHeader c5Rows
  refine ⟨h.1, h.2.2.1, h.2.2.2 c5Err ?_⟩
  rw [show (processCSVStream (decodeCSV (sampleHeader :: c5Rows))).2 = [c5Err] from rfl]
  exact List.mem_singleton.mpr rfl

/-! ## C6 first violation wins -/

/-- C6: validation reports exactly one rule violation — the first failing
field in declaration order (title, then price, then projectId); in
particular a record whose title trims to the empty string always yields
the title-emptiness violation, whatever the other fields hold. -/
theorem first_rule_violation_wins (raw : RawRecord) (e : ValidationError)
    (h : propertySchemaValidate raw = .error e) :
    (checkTitle raw = .error e
      ∨ ((∃ t, checkTitle raw = .ok t) ∧ checkPrice raw = .error e)
      ∨ ((∃ t, checkTitle raw = .ok t) ∧ (∃ p, checkPrice raw = .ok p)
          ∧ checkProjectId raw = .error e)) ∧
    (∀ s, List.lookup "title" raw = some s → (strTrim s).length = 0
      → e = ValidationError.titleEmpty) := by
  constructor
  · unfold propertySchemaValidate at h
    split at h
    next e1 heq =>
      cases h
      exact Or.inl heq
    next t heq =>
      split at h
      next e2 heq2 =>
        cases h
        exact Or.inr (Or.inl ⟨⟨t, heq⟩, heq2⟩)
      next p heq2 =>
        split at h
        next e3 heq3 =>
          cases h
          exact Or.inr (Or.inr ⟨⟨t, heq⟩, ⟨p, heq2⟩, heq3⟩)
        next pid heq3 => cases h
  · intro s hs htrim
    have ht : checkTitle raw = .error .titleEmpty := by
      simp [checkTitle, hs, htrim]
    unfold propertySchemaValidate at h
    rw [ht] at h
    simp at h
    exact h.symm

/-- C6 witness: empty title with invalid price yields the title-emptiness
violation, via the first-violation theorem. -/
theorem first_rule_violation_wins_witness :
    propertySchemaValidate c6Raw = .error ValidationError.titleEmpty ∧
    (checkTitle c6Raw = .error ValidationError.titleEmpty
      ∨ ((∃ t, checkTitle c6Raw = .ok t) ∧ checkPrice c6Raw = .error ValidationError.titleEmpty)
      ∨ ((∃ t, checkTitle c6Raw = .ok t) ∧ (∃ p, checkPrice c6Raw = .ok p)
          ∧ checkProjectId c6Raw = .error ValidationError.titleEmpty)) ∧
    ValidationError.titleEmpty = ValidationError.titleEmpty := by
  have h := first_rule_violation_wins c6Raw ValidationError.titleEmpty rfl
  exact ⟨rfl, h.1, h.2 "" rfl rfl⟩

/-! ## C7 empty file -/

/-- C7: a zero-byte upload is rejected, ahead of the decoding stage, with
the client error message `Empty CSV file provided`, no gateway call and
no summary object. -/
theorem empty_file_rejected (b : String) (now t : Nat) :
    (importProperties (some []) b now t) = (.emptyFile, []) ∧
    responseError (importProperties (some []) b now t).1 = some "Empty CSV file provided" ∧
    responseSummary (importProperties (some []) b now t).1 = none :=
  ⟨rfl, rfl, rfl⟩

/-! ## C8 unknown columns -/

/-- C8: a column outside the declared schema never changes the validation
result — prepended or appended, the record validates exactly as without
it, so unknown columns neither propagate into the ValidatedRecord nor
cause failure. -/
theorem unknown_columns_ignored (raw : RawRecord) (k v : String)
    (h1 : k ≠ "title") (h2 : k ≠ "price") (h3 : k ≠ "projectId") :
    propertySchemaValidate ((k, v) :: raw) = propertySchemaValidate raw ∧
    propertySchemaValidate (raw ++ [(k, v)]) = propertySchemaValidate raw := by
  constructor
  · exact propertySchemaValidate_congr
      (lookup_cons_ne v raw (Ne.symm h1))
      (lookup_cons_ne v raw (Ne.symm h2))
      (lookup_cons_ne v raw (Ne.symm h3))
  · exact propertySchemaValidate_congr
      (lookup_append_ne v raw (Ne.symm h1))
      (lookup_append_ne v raw (Ne.symm h2))
      (lookup_append_ne v raw (Ne.symm h3))

/-- C8 witness: an extra `bedrooms` column leaves the result of a valid
record unchanged. -/
theorem unknown_columns_ignored_witness :
    propertySchemaValidate (("bedrooms", "3") :: c8Raw) = propertySchemaValidate c8Raw ∧
    propertySchemaValidate (c8Raw ++ [("bedrooms", "3")]) = propertySchemaValidate c8Raw :=
  unknown_columns_ignored c8Raw "bedrooms" "3" (by decide) (by decide) (by decide)

/-! ## C9 validator purity -/

/-- C9: the Row Validator is deterministic and has no hidden state:
applying it twice to the same record yields the same result, and its
result depends only on the three declared fields of its input. -/
theorem validator_pure (raw raw1 raw2 : RawRecord)
    (ht : List.lookup "title" raw1 = List.lookup "title" raw2)
    (hp : List.lookup "price" raw1 = List.lookup "price" raw2)
    (hj : List.lookup "projectId" raw1 = List.lookup "projectId" raw2) :
    propertySchemaValidate raw = propertySchemaValidate raw ∧
    propertySchemaValidate raw1 = propertySchemaValidate raw2 :=
  ⟨rfl, propertySchemaValidate_congr ht hp hj⟩

/-- C9 witness: two records agreeing on the declared fields validate
identically. -/
theorem validator_pure_witness :
    propertySchemaValidate c9RawA = propertySchemaValidate c9RawA ∧
    propertySchemaValidate c9RawA = propertySchemaValidate c9RawB :=
  validator_pure c9RawA c9RawA c9RawB rfl rfl rfl

/-! ## C10 success response shape -/

/-- C10: every 200 response has `success = true`, its `successful` count
equals the number of rows that passed validation (the gateway returns one
stored record per submitted record), and `validationErrors` is attached
exactly when at least one row failed. -/
theorem success_response_shape (lines : List (List String)) (b : String) (now t : Nat)
    (r : SuccessResponse)
    (h : (importProperties (some lines) b now t).1 = .completed r) :
    r.success = true ∧
    r.summary.successful = (processCSVStream (decodeCSV lines)).1.length ∧
    (r.validationErrors.isSome = true ↔ (processCSVStream (decodeCSV lines)).2 ≠ []) := by
  by_cases he : lines.isEmpty
  · simp [importProperties, he] at h
  · by_cases hv : (processCSVStream (decodeCSV lines)).1.isEmpty
    · simp [importProperties, he, hv] at h
    · simp [importProperties, he, hv] at h
      subst h
      refine ⟨rfl, ?_, ?_⟩
      · simp [insertMany_length]
      · by_cases hz : (processCSVStream (decodeCSV lines)).2.length > 0
        · simp [hz]
          intro hnil
          rw [hnil] at hz
          simp at hz
        · simp at hz
          simp [hz]

/-- C10 witness: the success-response theorem applied to the mixed sample
file. -/
theorem success_response_shape_witness :
    sampleMixedResponse.success = true ∧
    sampleMixedResponse.summary.successful
      = (processCSVStream (decodeCSV sampleMixedFile)).1.length ∧
    (sampleMixedResponse.validationErrors.isSome = true
      ↔ (processCSVStream (decodeCSV sampleMixedFile)).2 ≠ []) :=
  success_response_shape sampleMixedFile "broker_123" 5 7 sampleMixedResponse rfl
